import Mathlib

/-!
Shallow embedding of the tax-calculation engine of the stocks-simulation
repository (src/utils/taxCalculations.ts, src/utils/calculations.ts,
src/utils/section102.ts) together with the date arithmetic it inherits from
the date-fns library.  Machine floating-point numbers are modelled as exact
rationals; JavaScript `Date` values are modelled at day granularity.
-/

namespace StocksSim

/-- A tax bracket `{min, max, rate}`; `hi = none` models `max: Infinity`. -/
structure Bracket where
  lo : ℚ
  hi : Option ℚ
  rate : ℚ
  deriving DecidableEq, Repr

/-- Israeli income-tax brackets for 2025 (`TAX_BRACKETS`). -/
def TAX_BRACKETS : List Bracket :=
  [⟨0, some 84120, 0.10⟩,
   ⟨84120, some 120720, 0.14⟩,
   ⟨120720, some 193800, 0.20⟩,
   ⟨193800, some 269280, 0.31⟩,
   ⟨269280, some 560280, 0.35⟩,
   ⟨560280, some 721560, 0.47⟩,
   ⟨721560, none, 0.50⟩]

/-- National Insurance + Health brackets for 2025, monthly
(`NATIONAL_INSURANCE_BRACKETS`). -/
def NATIONAL_INSURANCE_BRACKETS : List Bracket :=
  [⟨0, some 7522, 0.0427⟩,
   ⟨7522, some 50695, 0.1217⟩,
   ⟨50695, none, 0⟩]

def SURTAX_THRESHOLD : ℚ := 721560
def SURTAX_LABOR_RATE : ℚ := 0.03
def SURTAX_PASSIVE_RATE : ℚ := 0.05
def CAPITAL_GAINS_RATE : ℚ := 0.25
def CAPITAL_GAINS_RATE_CONTROLLING : ℚ := 0.30

/-- The bracket-walking loop shared by `calculateProgressiveTax` and
`calculateNationalInsuranceMonthly`: for each bracket take
`min(remaining, max - min)` at the bracket's rate, stopping when the income
is exhausted or the unbounded (`Infinity`) bracket is reached, where
`min(remaining, Infinity) = remaining`. -/
def bracketLoop : List Bracket → ℚ → ℚ
  | [], _ => 0
  | b :: rest, remainingIncome =>
    if remainingIncome ≤ 0 then 0
    else
      match b.hi with
      | none => remainingIncome * b.rate
      | some hi =>
        let bracketIncome := min remainingIncome (hi - b.lo)
        bracketIncome * b.rate + bracketLoop rest (remainingIncome - bracketIncome)

/-- `calculateProgressiveTax(income)`. -/
def calculateProgressiveTax (income : ℚ) : ℚ :=
  bracketLoop TAX_BRACKETS income

/-- `calculateAdditionalProgressiveTax(baseIncome, additionalIncome)`. -/
def calculateAdditionalProgressiveTax (baseIncome additionalIncome : ℚ) : ℚ :=
  calculateProgressiveTax (baseIncome + additionalIncome) - calculateProgressiveTax baseIncome

/-- `calculateNationalInsuranceMonthly(monthlyEmploymentIncomeIls)`. -/
def calculateNationalInsuranceMonthly (monthlyEmploymentIncomeIls : ℚ) : ℚ :=
  bracketLoop NATIONAL_INSURANCE_BRACKETS monthlyEmploymentIncomeIls

/-- `calculateAdditionalNationalInsurance(baseMonthlySalaryIls, additionalMonthlyIncomeIls)`. -/
def calculateAdditionalNationalInsurance (baseMonthlySalaryIls additionalMonthlyIncomeIls : ℚ) : ℚ :=
  calculateNationalInsuranceMonthly (baseMonthlySalaryIls + additionalMonthlyIncomeIls)
    - calculateNationalInsuranceMonthly baseMonthlySalaryIls

/-- Result record of `calculateSurtax`. -/
structure SurtaxResult where
  laborSurtax : ℚ
  passiveSurtax : ℚ
  totalSurtax : ℚ
  deriving DecidableEq, Repr

/-- `calculateSurtax(annualLaborIncomeIls, annualPassiveIncomeIls)`. -/
def calculateSurtax (annualLaborIncomeIls annualPassiveIncomeIls : ℚ) : SurtaxResult :=
  let totalIncome := annualLaborIncomeIls + annualPassiveIncomeIls
  if totalIncome ≤ SURTAX_THRESHOLD then
    ⟨0, 0, 0⟩
  else
    let excessIncome := totalIncome - SURTAX_THRESHOLD
    let laborExcess := min excessIncome annualLaborIncomeIls
    let laborSurtax := laborExcess * SURTAX_LABOR_RATE
    let passiveExcess := max 0 (excessIncome - laborExcess)
    let passiveSurtax := passiveExcess * SURTAX_PASSIVE_RATE
    ⟨laborSurtax, passiveSurtax, laborSurtax + passiveSurtax⟩

/-- A JavaScript `Date` at day granularity; `month` uses the JS 0–11
convention. -/
structure SDate where
  year : Int
  month : Int
  day : Int
  deriving DecidableEq, Repr

def isLeapYear (y : Int) : Bool :=
  (y % 4 == 0 && y % 100 != 0) || (y % 400 == 0)

def daysInMonth (y m : Int) : Int :=
  if m = 1 then (if isLeapYear y then 29 else 28)
  else if m = 3 ∨ m = 5 ∨ m = 8 ∨ m = 10 then 30
  else 31

/-- A structurally valid calendar date. -/
def SDate.Valid (d : SDate) : Prop :=
  0 ≤ d.month ∧ d.month ≤ 11 ∧ 1 ≤ d.day ∧ d.day ≤ daysInMonth d.year d.month

instance (d : SDate) : Decidable d.Valid := by
  unfold SDate.Valid; infer_instance

/-- date-fns `compareAsc` on day-granularity dates: lexicographic on
(year, month, day), returning -1 / 0 / 1. -/
def compareAsc (a b : SDate) : Int :=
  if a.year < b.year then -1
  else if b.year < a.year then 1
  else if a.month < b.month then -1
  else if b.month < a.month then 1
  else if a.day < b.day then -1
  else if b.day < a.day then 1
  else 0

/-- JS `Date` field normalization for an out-of-range month index and a day
that may overflow into the following month (the `setDate`/`setMonth` uses in
`differenceInMonths` only ever overflow by at most one month, since their day
arguments are at most 31). -/
def jsDate (y m d : Int) : SDate :=
  let y1 := y + Int.fdiv m 12
  let m1 := Int.fmod m 12
  if d ≤ daysInMonth y1 m1 then ⟨y1, m1, d⟩
  else
    let d2 := d - daysInMonth y1 m1
    let y2 := y1 + Int.fdiv (m1 + 1) 12
    let m2 := Int.fmod (m1 + 1) 12
    ⟨y2, m2, d2⟩

/-- date-fns `addMonths`: the day of month is clamped to the length of the
target month. -/
def addMonths (d : SDate) (amount : Int) : SDate :=
  let y := d.year + Int.fdiv (d.month + amount) 12
  let m := Int.fmod (d.month + amount) 12
  ⟨y, m, min d.day (daysInMonth y m)⟩

/-- date-fns `addYears(d, n) = addMonths(d, 12·n)`. -/
def addYears (d : SDate) (amount : Int) : SDate :=
  addMonths d (12 * amount)

def differenceInCalendarMonths (l r : SDate) : Int :=
  (l.year - r.year) * 12 + (l.month - r.month)

def isLastDayOfMonth (d : SDate) : Bool :=
  d.day == daysInMonth d.year d.month

/-- date-fns `differenceInMonths(dateLeft, dateRight)`: the number of full
months between the dates, with the end-of-February adjustment
(`setDate(30)`) and the last-day-of-month special case. -/
def differenceInMonths (dateLeft dateRight : SDate) : Int :=
  let sign := compareAsc dateLeft dateRight
  let difference := |differenceInCalendarMonths dateLeft dateRight|
  if difference < 1 then 0
  else
    let adjusted :=
      if dateLeft.month == 1 && 27 < dateLeft.day then
        jsDate dateLeft.year dateLeft.month 30
      else dateLeft
    let shifted := jsDate adjusted.year (adjusted.month - sign * difference) adjusted.day
    let notFull : Bool := compareAsc shifted dateRight == -sign
    let isLastMonthNotFull :=
      if isLastDayOfMonth dateLeft && difference == 1 && compareAsc dateLeft dateRight == 1 then
        false
      else notFull
    sign * (difference - (if isLastMonthNotFull then 1 else 0))

/-- Serial day number of a civil date (proleptic Gregorian, Hinnant's
days-from-civil); models timestamps at day granularity. -/
def dayNumber (d : SDate) : Int :=
  let m := d.month + 1
  let y := if m ≤ 2 then d.year - 1 else d.year
  let era := Int.fdiv y 400
  let yoe := y - era * 400
  let mp := Int.fmod (m + 9) 12
  let doy := Int.fdiv (153 * mp + 2) 5 + d.day - 1
  let doe := yoe * 365 + Int.fdiv yoe 4 - Int.fdiv yoe 100 + doy
  era * 146097 + doe - 719468

/-- date-fns `differenceInDays` at day granularity. -/
def differenceInDays (l r : SDate) : Int :=
  dayNumber l - dayNumber r

/-- The calendar day immediately before `d`. -/
def predDate (d : SDate) : SDate :=
  if 1 < d.day then ⟨d.year, d.month, d.day - 1⟩
  else if d.month = 0 then ⟨d.year - 1, 11, 31⟩
  else ⟨d.year, d.month - 1, daysInMonth d.year (d.month - 1)⟩

inductive GrantType
  | RSUs | Options | ESPP
  deriving DecidableEq, Repr

inductive Section102Track
  | capitalGains | ordinaryIncome
  deriving DecidableEq, Repr

/-- The `Grant` record (src/types/index.ts); optional fields are `Option`s. -/
structure Grant where
  id : String
  amount : ℚ
  vestingFrom : SDate
  grantDate : SDate
  vestingYears : ℚ
  price : ℚ
  type : GrantType
  ticker : String
  isSection102 : Option Bool
  section102Track : Option Section102Track
  esppDiscount : Option ℚ
  purchaseDate : Option SDate
  deriving DecidableEq, Repr

def SECTION_102_HOLDING_PERIOD_MONTHS : Int := 24

/-- `hasMetSection102HoldingPeriod(grant, currentDate)`
(`grant.isSection102 !== false` defaults a missing flag to Section 102). -/
def hasMetSection102HoldingPeriod (grant : Grant) (currentDate : SDate) : Bool :=
  let isSection102 := grant.isSection102 != some false
  if isSection102 then
    let monthsSinceGrant := differenceInMonths currentDate grant.grantDate
    decide (SECTION_102_HOLDING_PERIOD_MONTHS ≤ monthsSinceGrant)
  else false

/-- `getSection102EligibilityDate(grant) = addYears(grant.grantDate, 2)`. -/
def getSection102EligibilityDate (grant : Grant) : SDate :=
  addYears grant.grantDate 2

/-- `getDaysUntilSection102Eligible(grant, currentDate)`. -/
def getDaysUntilSection102Eligible (grant : Grant) (currentDate : SDate) : Int :=
  if grant.isSection102 == some false then 0
  else if hasMetSection102HoldingPeriod grant currentDate then 0
  else max 0 (differenceInDays (getSection102EligibilityDate grant) currentDate)

/-- `getMonthsUntilSection102Eligible(grant, currentDate)`. -/
def getMonthsUntilSection102Eligible (grant : Grant) (currentDate : SDate) : Int :=
  if grant.isSection102 == some false then 0
  else if hasMetSection102HoldingPeriod grant currentDate then 0
  else
    let monthsSinceGrant := differenceInMonths currentDate grant.grantDate
    max 0 (SECTION_102_HOLDING_PERIOD_MONTHS - monthsSinceGrant)

/-- `formatSection102TimeRemaining(grant, currentDate)`. -/
def formatSection102TimeRemaining (grant : Grant) (currentDate : SDate) : String :=
  if grant.isSection102 == some false then "Not Section 102"
  else if hasMetSection102HoldingPeriod grant currentDate then "Eligible"
  else
    let daysRemaining := getDaysUntilSection102Eligible grant currentDate
    let monthsRemaining := Int.fdiv daysRemaining 30
    let daysLeftover := Int.fmod daysRemaining 30
    if 0 < monthsRemaining then
      toString monthsRemaining ++ "m " ++ toString daysLeftover ++ "d"
    else
      toString daysRemaining ++ "d"

inductive Section102StatusKind
  | eligible | waiting | notApplicable
  deriving DecidableEq, Repr

structure Section102Status where
  status : Section102StatusKind
  text : String
  color : String
  deriving DecidableEq, Repr

/-- `getSection102Status(grant, currentDate)`: the 3-state holding-period
classifier. -/
def getSection102Status (grant : Grant) (currentDate : SDate) : Section102Status :=
  if grant.isSection102 == some false then
    ⟨.notApplicable, "Not 102", "gray"⟩
  else if hasMetSection102HoldingPeriod grant currentDate then
    ⟨.eligible, "v", "green"⟩
  else
    ⟨.waiting, formatSection102TimeRemaining grant currentDate, "yellow"⟩

/-- `TaxSettings` (src/utils/taxCalculations.ts). -/
structure TaxSettings where
  marginalTaxRate : Option ℚ
  annualIncome : Option ℚ
  useProgressiveTax : Bool
  isControllingShareholder : Option Bool
  deriving DecidableEq, Repr

/-- The `breakdown` record of a `TaxCalculationResult` (always populated by
`calculateRSUTax` / `calculateOptionTax`). -/
structure TaxBreakdown where
  incomeTax : ℚ
  nationalInsurance : ℚ
  capitalGainsTax : ℚ
  surtax : ℚ
  section102Applied : Bool
  deriving DecidableEq, Repr

structure TaxCalculationResult where
  grossGain : ℚ
  totalTax : ℚ
  netGain : ℚ
  effectiveTaxRate : ℚ
  breakdown : TaxBreakdown
  deriving DecidableEq, Repr

/-- The income-tax block shared verbatim by the branches of
`calculateRSUTax` / `calculateOptionTax`, applied to an ILS amount:
progressive on top of `annualIncome` when it is set and positive, simplified
progressive otherwise; else the fixed `marginalTaxRate`, falling back to
0.47 when that is null. -/
def ordinaryIncomeTaxIls (taxSettings : TaxSettings) (amountIls : ℚ) : ℚ :=
  if taxSettings.useProgressiveTax then
    match taxSettings.annualIncome with
    | some annualIncome =>
      if 0 < annualIncome then calculateAdditionalProgressiveTax annualIncome amountIls
      else calculateProgressiveTax amountIls
    | none => calculateProgressiveTax amountIls
  else
    match taxSettings.marginalTaxRate with
    | some rate => amountIls * rate
    | none => amountIls * 0.47

/-- The National-Insurance block shared verbatim by the branches of
`calculateRSUTax` / `calculateOptionTax`: additional monthly NI on top of
`annualIncome / 12` when a positive annual income is set, otherwise the
monthly NI on `amountIls / 12`; annualized by `× 12` in both cases. -/
def nationalInsuranceIls (taxSettings : TaxSettings) (amountIls : ℚ) : ℚ :=
  match taxSettings.annualIncome with
  | some annualIncome =>
    if 0 < annualIncome then
      calculateAdditionalNationalInsurance (annualIncome / 12) (amountIls / 12) * 12
    else calculateNationalInsuranceMonthly (amountIls / 12) * 12
  | none => calculateNationalInsuranceMonthly (amountIls / 12) * 12

/-- The labor-surtax block shared verbatim by the non-preferential branches
of `calculateRSUTax` / `calculateOptionTax`
(`taxSettings.annualIncome || 0` is its `getD 0`). -/
def laborSurtaxDeltaIls (taxSettings : TaxSettings) (amountIls : ℚ) : ℚ :=
  let currentAnnualIncome := taxSettings.annualIncome.getD 0
  (calculateSurtax (currentAnnualIncome + amountIls) 0).laborSurtax
    - (calculateSurtax currentAnnualIncome 0).laborSurtax

/-- The shared result-assembly tail of `calculateRSUTax` /
`calculateOptionTax`: sum the ILS components, convert to the input currency
and populate the breakdown. -/
def mkTaxResult (grossGain incomeTax nationalInsurance capitalGainsTax surtax usdToIls : ℚ)
    (section102Applied : Bool) : TaxCalculationResult :=
  let totalTaxIls := incomeTax + nationalInsurance + capitalGainsTax + surtax
  let totalTaxUsd := totalTaxIls / usdToIls
  { grossGain := grossGain
    totalTax := totalTaxUsd
    netGain := grossGain - totalTaxUsd
    effectiveTaxRate := if 0 < grossGain then totalTaxUsd / grossGain else 0
    breakdown :=
      { incomeTax := incomeTax / usdToIls
        nationalInsurance := nationalInsurance / usdToIls
        capitalGainsTax := capitalGainsTax / usdToIls
        surtax := surtax / usdToIls
        section102Applied := section102Applied } }

/-- `calculateRSUTax(grant, shares, currentPrice, taxSettings, usdToIls, exerciseDate)`. -/
def calculateRSUTax (grant : Grant) (shares currentPrice : ℚ) (taxSettings : TaxSettings)
    (usdToIls : ℚ) (exerciseDate : SDate) : TaxCalculationResult :=
  let grossGain := shares * currentPrice
  let grantValue := shares * grant.price
  let appreciation := grossGain - grantValue
  let grossGainIls := grossGain * usdToIls
  let grantValueIls := grantValue * usdToIls
  let appreciationIls := appreciation * usdToIls
  let isSection102 := grant.isSection102 != some false
  let isEligibleForSection102 :=
    isSection102 && hasMetSection102HoldingPeriod grant exerciseDate
  if isEligibleForSection102 && (grant.section102Track == some .capitalGains) then
    let incomeTax := ordinaryIncomeTaxIls taxSettings grantValueIls
    let nationalInsurance := nationalInsuranceIls taxSettings grantValueIls
    let cgRate :=
      if taxSettings.isControllingShareholder == some true then CAPITAL_GAINS_RATE_CONTROLLING
      else CAPITAL_GAINS_RATE
    let capitalGainsTax := appreciationIls * cgRate
    let surtax := (calculateSurtax 0 appreciationIls).passiveSurtax
    mkTaxResult grossGain incomeTax nationalInsurance capitalGainsTax surtax usdToIls
      isEligibleForSection102
  else
    let incomeTax := ordinaryIncomeTaxIls taxSettings grossGainIls
    let nationalInsurance := nationalInsuranceIls taxSettings grossGainIls
    let surtax := laborSurtaxDeltaIls taxSettings grossGainIls
    mkTaxResult grossGain incomeTax nationalInsurance 0 surtax usdToIls
      isEligibleForSection102

/-- `calculateOptionTax(grant, shares, currentPrice, taxSettings, usdToIls, exerciseDate)`. -/
def calculateOptionTax (grant : Grant) (shares currentPrice : ℚ) (taxSettings : TaxSettings)
    (usdToIls : ℚ) (exerciseDate : SDate) : TaxCalculationResult :=
  if currentPrice ≤ grant.price then
    { grossGain := 0, totalTax := 0, netGain := 0, effectiveTaxRate := 0
      breakdown :=
        { incomeTax := 0, nationalInsurance := 0, capitalGainsTax := 0, surtax := 0
          section102Applied := false } }
  else
    let grossGain := shares * (currentPrice - grant.price)
    let grossGainIls := grossGain * usdToIls
    let isSection102 := grant.isSection102 != some false
    let isEligibleForSection102 :=
      isSection102 && hasMetSection102HoldingPeriod grant exerciseDate
    if isEligibleForSection102 then
      let cgRate :=
        if taxSettings.isControllingShareholder == some true then CAPITAL_GAINS_RATE_CONTROLLING
        else CAPITAL_GAINS_RATE
      let capitalGainsTax := grossGainIls * cgRate
      let surtax := (calculateSurtax 0 grossGainIls).passiveSurtax
      mkTaxResult grossGain 0 0 capitalGainsTax surtax usdToIls isEligibleForSection102
    else
      let incomeTax := ordinaryIncomeTaxIls taxSettings grossGainIls
      let nationalInsurance := nationalInsuranceIls taxSettings grossGainIls
      let surtax := laborSurtaxDeltaIls taxSettings grossGainIls
      mkTaxResult grossGain incomeTax nationalInsurance 0 surtax usdToIls
        isEligibleForSection102

/-- `calculateTaxForGrant`. -/
def calculateTaxForGrant (grant : Grant) (shares currentPrice : ℚ) (taxSettings : TaxSettings)
    (usdToIls : ℚ) (exerciseDate : SDate) : TaxCalculationResult :=
  if grant.type == GrantType.RSUs then
    calculateRSUTax grant shares currentPrice taxSettings usdToIls exerciseDate
  else
    calculateOptionTax grant shares currentPrice taxSettings usdToIls exerciseDate

/-- Result record of `calculateESPPTax` (src/utils/calculations.ts). -/
structure ESPPTaxResult where
  discountTax : ℚ
  capitalGainsTax : ℚ
  totalTax : ℚ
  immediatelyTaxed : Bool
  ordinaryIncomeAmount : ℚ
  capitalGainsAmount : ℚ
  note : Option String
  trusteeTaxWithheld : Option ℚ
  deriving DecidableEq, Repr

/-- `calculateESPPTax(purchasePrice, fairMarketValueAtPurchase, salePrice,
shares, withTrustee, holdingPeriodMet, marginalTaxRate)`; the explanatory
`note` strings are abstracted to a marker since only their presence matters. -/
def calculateESPPTax (purchasePrice fairMarketValueAtPurchase salePrice shares : ℚ)
    (withTrustee holdingPeriodMet : Bool) (marginalTaxRate : ℚ) : ESPPTaxResult :=
  let discountBenefit := (fairMarketValueAtPurchase - purchasePrice) * shares
  let capitalAppreciation := (salePrice - fairMarketValueAtPurchase) * shares
  if !withTrustee then
    let discountTax := discountBenefit * marginalTaxRate
    let capitalGainsTax := max 0 (capitalAppreciation * 0.25)
    { discountTax := discountTax
      capitalGainsTax := capitalGainsTax
      totalTax := discountTax + capitalGainsTax
      immediatelyTaxed := true
      ordinaryIncomeAmount := discountBenefit
      capitalGainsAmount := capitalAppreciation
      note := none
      trusteeTaxWithheld := none }
  else
    let trusteeWithholdingRate : ℚ := 0.62
    if !holdingPeriodMet then
      let totalGain := (salePrice - purchasePrice) * shares
      { discountTax := discountBenefit * marginalTaxRate
        capitalGainsTax := max 0 (capitalAppreciation * marginalTaxRate)
        totalTax := totalGain * marginalTaxRate
        immediatelyTaxed := false
        ordinaryIncomeAmount := totalGain
        capitalGainsAmount := 0
        note := some "trustee-withholds-note"
        trusteeTaxWithheld := some (totalGain * trusteeWithholdingRate) }
    else
      let discountTax := discountBenefit * marginalTaxRate
      let capitalGainsTax := max 0 (capitalAppreciation * 0.25)
      let trusteeTaxWithheld :=
        discountBenefit * trusteeWithholdingRate + capitalAppreciation * 0.25
      { discountTax := discountTax
        capitalGainsTax := capitalGainsTax
        totalTax := discountTax + capitalGainsTax
        immediatelyTaxed := false
        ordinaryIncomeAmount := discountBenefit
        capitalGainsAmount := capitalAppreciation
        note := some "trustee-withholds-note"
        trusteeTaxWithheld := some trusteeTaxWithheld }

/-- Well-formedness of a bracket: non-negative rate and non-negative width. -/
def Bracket.Ok (b : Bracket) : Prop :=
  0 ≤ b.rate ∧ b.lo ≤ b.hi.getD b.lo

instance (b : Bracket) : Decidable b.Ok := by
  unfold Bracket.Ok; infer_instance

/-- A concrete Section 102 RSU grant used to witness Claim C4. -/
def c4Grant : Grant :=
  { id := "g", amount := 100, vestingFrom := ⟨2020, 4, 15⟩, grantDate := ⟨2020, 4, 15⟩,
    vestingYears := 4, price := 10, type := .RSUs, ticker := "TICK",
    isSection102 := some true, section102Track := some .capitalGains,
    esppDiscount := none, purchaseDate := none }

/-- The RSU grant of the Claim C1 scenario (not preferential-track
eligible). -/
def c1Grant : Grant :=
  { id := "c1", amount := 1000, vestingFrom := ⟨2020, 0, 15⟩, grantDate := ⟨2020, 0, 15⟩,
    vestingYears := 4, price := 15.5, type := .RSUs, ticker := "TICK",
    isSection102 := some false, section102Track := none,
    esppDiscount := none, purchaseDate := none }

/-- The tax settings of the Claim C1 scenario: fixed marginal rate 0.47. -/
def c1Settings : TaxSettings :=
  { marginalTaxRate := some 0.47, annualIncome := none, useProgressiveTax := false,
    isControllingShareholder := none }

/-- An Option grant with strike price 10, used to witness Claim C8. -/
def c8Grant : Grant :=
  { id := "c8", amount := 500, vestingFrom := ⟨2021, 2, 1⟩, grantDate := ⟨2021, 2, 1⟩,
    vestingYears := 4, price := 10, type := .Options, ticker := "TICK",
    isSection102 := some true, section102Track := some .capitalGains,
    esppDiscount := none, purchaseDate := none }

/-- Tax settings with a positive base annual income, used in witnesses. -/
def incomeSettings : TaxSettings :=
  { marginalTaxRate := none, annualIncome := some 480000, useProgressiveTax := true,
    isControllingShareholder := some false }

/-! ### Helper lemmas about the date model -/

lemma fdiv_twelve (a : Int) : Int.fdiv a 12 = a / 12 :=
  Int.fdiv_eq_ediv _ (by norm_num)

lemma fmod_twelve (a : Int) : Int.fmod a 12 = a % 12 :=
  Int.fmod_eq_emod _ (by norm_num)

lemma daysInMonth_ge (y m : Int) : 28 ≤ daysInMonth y m := by
  unfold daysInMonth; split_ifs <;> norm_num

lemma daysInMonth_le (y m : Int) : daysInMonth y m ≤ 31 := by
  unfold daysInMonth; split_ifs <;> norm_num

lemma daysInMonth_not_feb (y y' m : Int) (h : m ≠ 1) :
    daysInMonth y m = daysInMonth y' m := by
  unfold daysInMonth; split_ifs <;> simp_all

lemma feb_le_29 (y : Int) : daysInMonth y 1 ≤ 29 := by
  unfold daysInMonth; split_ifs <;> omega

lemma feb_29_leap (y : Int) (h : 29 ≤ daysInMonth y 1) : isLeapYear y = true := by
  by_cases hl : isLeapYear y = true
  · exact hl
  · exfalso
    simp only [daysInMonth, if_pos rfl, hl] at h
    norm_num at h

lemma not_leap_two_apart (y : Int) (h : isLeapYear y = true)
    (h' : isLeapYear (y + 2) = true) : False := by
  simp only [isLeapYear, Bool.or_eq_true, Bool.and_eq_true, beq_iff_eq, bne_iff_ne,
    ne_eq] at h h'
  omega

lemma compareAsc_self (a : SDate) : compareAsc a a = 0 := by
  unfold compareAsc; split_ifs <;> omega

/-- `addYears ⟨y,m,d⟩ 2` lands on month `m` of year `y + 2`, with the day of
month clamped. -/
lemma addYears_two (y m d : Int) (hm0 : 0 ≤ m) (hm1 : m ≤ 11) :
    addYears ⟨y, m, d⟩ 2 = ⟨y + 2, m, min d (daysInMonth (y + 2) m)⟩ := by
  have e1 : (m + 24) / 12 = 2 := by omega
  have e2 : (m + 24) % 12 = m := by omega
  simp only [addYears, addMonths, fdiv_twelve, fmod_twelve]
  norm_num [e1, e2]

/-- A date in year `y + 2` compares strictly after any date in year `y`. -/
lemma compareAsc_year_lt {y₁ m₁ d₁ y₂ m₂ d₂ : Int} (h : y₂ < y₁) :
    compareAsc ⟨y₁, m₁, d₁⟩ ⟨y₂, m₂, d₂⟩ = 1 := by
  unfold compareAsc; split_ifs <;> simp_all <;> omega

lemma compareAsc_day_lt {y m d₁ d₂ : Int} (h : d₁ < d₂) :
    compareAsc ⟨y, m, d₁⟩ ⟨y, m, d₂⟩ = -1 := by
  unfold compareAsc; split_ifs <;> simp_all <;> omega

lemma compareAsc_month_lt {y m₁ d₁ m₂ d₂ : Int} (h : m₂ < m₁) :
    compareAsc ⟨y, m₁, d₁⟩ ⟨y, m₂, d₂⟩ = 1 := by
  unfold compareAsc; split_ifs <;> simp_all <;> omega

/-- `jsDate` is the identity on in-range fields. -/
lemma jsDate_in_range (y m d : Int) (hm0 : 0 ≤ m) (hm1 : m ≤ 11)
    (hd : d ≤ daysInMonth y m) : jsDate y m d = ⟨y, m, d⟩ := by
  have e1 : m / 12 = 0 := by omega
  have e2 : m % 12 = m := by omega
  simp only [jsDate, fdiv_twelve, fmod_twelve, e1, e2, add_zero]
  rw [if_pos hd]

/-- `jsDate` rolls an overflowing day into the following month. -/
lemma jsDate_overflow (y m d : Int) (hm0 : 0 ≤ m) (hm1 : m ≤ 10)
    (hd : daysInMonth y m < d) :
    jsDate y m d = ⟨y, m + 1, d - daysInMonth y m⟩ := by
  have e1 : m / 12 = 0 := by omega
  have e2 : m % 12 = m := by omega
  have e3 : (m + 1) / 12 = 0 := by omega
  have e4 : (m + 1) % 12 = m + 1 := by omega
  simp only [jsDate, fdiv_twelve, fmod_twelve, e1, e2, add_zero]
  rw [if_neg (by omega)]
  simp only [e3, e4, add_zero]

/-- Subtracting 24 from the month index is subtracting two years. -/
lemma jsDate_month_sub_24 (y m d : Int) : jsDate y (m - 24) d = jsDate (y - 2) m d := by
  have e1 : (m - 24) / 12 = m / 12 - 2 := by omega
  have e2 : (m - 24) % 12 = m % 12 := by omega
  simp only [jsDate, fdiv_twelve, fmod_twelve, e1, e2]
  have e3 : y + (m / 12 - 2) = y - 2 + m / 12 := by ring
  rw [e3]

/-- date-fns counts exactly 24 full months from any valid date to its
two-year anniversary (day clamped to the target month). -/
lemma diffMonths_anniversary (y m d : Int) (hm0 : 0 ≤ m) (hm1 : m ≤ 11)
    (hd0 : 1 ≤ d) (hd1 : d ≤ daysInMonth y m) :
    differenceInMonths (addYears ⟨y, m, d⟩ 2) ⟨y, m, d⟩ = 24 := by
  rw [addYears_two y m d hm0 hm1]
  have hdim2a : 28 ≤ daysInMonth (y + 2) m := daysInMonth_ge _ _
  have hdim2b : daysInMonth (y + 2) m ≤ 31 := daysInMonth_le _ _
  set dim2 := daysInMonth (y + 2) m with hdim2
  set e := min d dim2 with he
  have hsign : compareAsc ⟨y + 2, m, e⟩ ⟨y, m, d⟩ = 1 := compareAsc_year_lt (by omega)
  have hdcm : differenceInCalendarMonths ⟨y + 2, m, e⟩ ⟨y, m, d⟩ = 24 := by
    simp [differenceInCalendarMonths]
  simp only [differenceInMonths, hsign, hdcm]
  norm_num
  by_cases hcase : m = 1 ∧ 27 < e
  · -- end-of-February adjustment fires
    obtain ⟨hmfeb, h27⟩ := hcase
    subst hmfeb
    rw [if_pos ⟨rfl, h27⟩]
    have hfeb := feb_le_29 (y + 2)
    have hadj : jsDate (y + 2) 1 30 = ⟨y + 2, 2, 30 - dim2⟩ := by
      rw [jsDate_overflow (y + 2) 1 30 (by norm_num) (by norm_num) (by omega)]
      rw [← hdim2]
      norm_num
    rw [hadj]
    dsimp only
    rw [show (2 : Int) - 24 = 2 - 24 from rfl, jsDate_month_sub_24,
      show y + 2 - 2 = y by ring]
    have h31 : daysInMonth y 2 = 31 := by norm_num [daysInMonth]
    rw [jsDate_in_range y 2 (30 - dim2) (by norm_num) (by norm_num) (by omega)]
    rw [compareAsc_month_lt (by norm_num)]
    norm_num
  · -- no adjustment: the back-shifted date is the grant date itself
    rw [if_neg hcase]
    dsimp only
    have hed : e = d := by
      by_cases hmfeb : m = 1
      · have h27 : ¬27 < e := fun h => hcase ⟨hmfeb, h⟩
        rcases le_total d dim2 with h | h
        · rw [he, min_eq_left h]
        · exfalso
          rw [he, min_eq_right h] at h27
          omega
      · have hde : dim2 = daysInMonth y m := by
          rw [hdim2]
          exact daysInMonth_not_feb _ _ _ hmfeb
        rw [he, min_eq_left (by omega)]
    rw [jsDate_month_sub_24, show y + 2 - 2 = y by ring]
    rw [jsDate_in_range y m e hm0 hm1 (by omega)]
    rw [hed, compareAsc_self]
    norm_num

/-- date-fns counts strictly fewer than 24 full months from any valid date
to the day before its two-year anniversary. -/
lemma diffMonths_pred_anniversary (y m d : Int) (hm0 : 0 ≤ m) (hm1 : m ≤ 11)
    (hd0 : 1 ≤ d) (hd1 : d ≤ daysInMonth y m) :
    differenceInMonths (predDate (addYears ⟨y, m, d⟩ 2)) ⟨y, m, d⟩ < 24 := by
  rw [addYears_two y m d hm0 hm1]
  have hdim2a : 28 ≤ daysInMonth (y + 2) m := daysInMonth_ge _ _
  have hdim2b : daysInMonth (y + 2) m ≤ 31 := daysInMonth_le _ _
  set dim2 := daysInMonth (y + 2) m with hdim2
  set e := min d dim2 with he
  have hee : e ≤ d ∧ e ≤ dim2 ∧ 1 ≤ e := by rw [he]; omega
  by_cases hcase : 1 < e
  · -- the predecessor stays inside the anniversary month
    have hpred : predDate ⟨y + 2, m, e⟩ = ⟨y + 2, m, e - 1⟩ := by
      simp only [predDate]
      rw [if_pos hcase]
    rw [hpred]
    have hsign : compareAsc ⟨y + 2, m, e - 1⟩ ⟨y, m, d⟩ = 1 := compareAsc_year_lt (by omega)
    have hdcm : differenceInCalendarMonths ⟨y + 2, m, e - 1⟩ ⟨y, m, d⟩ = 24 := by
      simp only [differenceInCalendarMonths]
      omega
    simp only [differenceInMonths, hsign, hdcm]
    norm_num
    have hnofeb : ¬(m = 1 ∧ 27 < e - 1) := by
      rintro ⟨hmfeb, h27⟩
      subst hmfeb
      exact not_leap_two_apart y (feb_29_leap y (by omega)) (feb_29_leap (y + 2) (by omega))
    rw [if_neg hnofeb]
    dsimp only
    rw [jsDate_month_sub_24, show y + 2 - 2 = y by ring]
    have hinr : e - 1 ≤ daysInMonth y m := by
      by_cases hmfeb : m = 1
      · subst hmfeb
        have := daysInMonth_ge y 1
        have := feb_le_29 (y + 2)
        omega
      · have hde : dim2 = daysInMonth y m := by
          rw [hdim2]
          exact daysInMonth_not_feb _ _ _ hmfeb
        omega
    rw [jsDate_in_range y m (e - 1) hm0 hm1 hinr]
    rw [compareAsc_day_lt (by omega)]
    norm_num
  · -- the anniversary falls on the 1st: its predecessor closes month 23
    have he1 : e = 1 := by omega
    have hd' : d = 1 := by
      rw [he] at he1
      omega
    subst hd'
    rw [he1]
    by_cases hmjan : m = 0
    · subst hmjan
      have hpred : predDate ⟨y + 2, 0, 1⟩ = ⟨y + 1, 11, 31⟩ := by
        simp only [predDate]
        rw [if_neg (by omega)]
        norm_num
        ring
      rw [hpred]
      have hsign : compareAsc ⟨y + 1, 11, 31⟩ ⟨y, 0, 1⟩ = 1 := compareAsc_year_lt (by omega)
      have hdcm : differenceInCalendarMonths ⟨y + 1, 11, 31⟩ ⟨y, 0, 1⟩ = 23 := by
        simp only [differenceInCalendarMonths]
        omega
      simp only [differenceInMonths, hsign, hdcm]
      norm_num
      split_ifs <;> norm_num
    · have hpred : predDate ⟨y + 2, m, 1⟩ = ⟨y + 2, m - 1, daysInMonth (y + 2) (m - 1)⟩ := by
        simp only [predDate]
        rw [if_neg (by omega), if_neg hmjan]
      rw [hpred]
      have hsign : compareAsc ⟨y + 2, m - 1, daysInMonth (y + 2) (m - 1)⟩ ⟨y, m, 1⟩ = 1 :=
        compareAsc_year_lt (by omega)
      have hdcm : differenceInCalendarMonths ⟨y + 2, m - 1, daysInMonth (y + 2) (m - 1)⟩
          ⟨y, m, 1⟩ = 23 := by
        simp only [differenceInCalendarMonths]
        omega
      simp only [differenceInMonths, hsign, hdcm]
      norm_num
      split_ifs <;> norm_num

lemma hasMet_anniversary (grant : Grant) (hen : grant.isSection102 ≠ some false)
    (hv : grant.grantDate.Valid) :
    hasMetSection102HoldingPeriod grant (getSection102EligibilityDate grant) = true := by
  obtain ⟨hm0, hm1, hd0, hd1⟩ := hv
  have h24 : differenceInMonths (addYears grant.grantDate 2) grant.grantDate = 24 :=
    diffMonths_anniversary grant.grantDate.year grant.grantDate.month grant.grantDate.day
      hm0 hm1 hd0 hd1
  simp only [hasMetSection102HoldingPeriod, getSection102EligibilityDate,
    SECTION_102_HOLDING_PERIOD_MONTHS, bne_iff_ne, ne_eq, hen, not_false_eq_true,
    if_true, h24, decide_eq_true_eq]
  norm_num

lemma hasMet_pred_anniversary (grant : Grant) (hen : grant.isSection102 ≠ some false)
    (hv : grant.grantDate.Valid) :
    hasMetSection102HoldingPeriod grant (predDate (getSection102EligibilityDate grant)) =
      false := by
  obtain ⟨hm0, hm1, hd0, hd1⟩ := hv
  have hlt : differenceInMonths (predDate (addYears grant.grantDate 2)) grant.grantDate < 24 :=
    diffMonths_pred_anniversary grant.grantDate.year grant.grantDate.month grant.grantDate.day
      hm0 hm1 hd0 hd1
  simp only [hasMetSection102HoldingPeriod, getSection102EligibilityDate,
    SECTION_102_HOLDING_PERIOD_MONTHS, bne_iff_ne, ne_eq, hen, not_false_eq_true,
    if_true, decide_eq_false_iff_not, not_le]
  omega

/-- Claim C4: for a grant with the preferential (Section 102) track enabled,
the holding-period classifier reports `eligible` exactly 24 calendar months
after the grant date and `waiting` one day earlier. -/
theorem c4_section102_eligibility_boundary (grant : Grant)
    (hen : grant.isSection102 ≠ some false) (hv : grant.grantDate.Valid) :
    (getSection102Status grant (getSection102EligibilityDate grant)).status =
      Section102StatusKind.eligible ∧
    (getSection102Status grant (predDate (getSection102EligibilityDate grant))).status =
      Section102StatusKind.waiting := by
  have hne : (grant.isSection102 == some false) = false := by
    simp [hen]
  constructor
  · simp [getSection102Status, hne, hasMet_anniversary grant hen hv]
  · simp [getSection102Status, hne, hasMet_pred_anniversary grant hen hv]

/-- Witness for Claim C4 at a concrete grant dated 2020-05-15. -/
theorem c4_witness :
    c4Grant.isSection102 ≠ some false ∧ c4Grant.grantDate.Valid ∧
    (getSection102Status c4Grant (getSection102EligibilityDate c4Grant)).status =
      Section102StatusKind.eligible ∧
    (getSection102Status c4Grant (predDate (getSection102EligibilityDate c4Grant))).status =
      Section102StatusKind.waiting :=
  ⟨by decide, by decide,
   (c4_section102_eligibility_boundary c4Grant (by decide) (by decide)).1,
   (c4_section102_eligibility_boundary c4Grant (by decide) (by decide)).2⟩

/-! ### Bracket-walk lemmas -/

lemma bracketLoop_nonneg (l : List Bracket) (hl : ∀ b ∈ l, b.Ok) (r : ℚ) :
    0 ≤ bracketLoop l r := by
  induction l generalizing r with
  | nil => simp [bracketLoop]
  | cons b rest ih =>
    have hb := hl b (List.mem_cons_self b rest)
    have hrest : ∀ q ∈ rest, q.Ok := fun q hq => hl q (List.mem_cons_of_mem b hq)
    simp only [bracketLoop]
    split_ifs with hr
    · exact le_refl 0
    · push_neg at hr
      rcases hhi : b.hi with _ | hi
      · exact mul_nonneg hr.le hb.1
      · have hw : 0 ≤ hi - b.lo := by
          have h2 := hb.2
          rw [hhi] at h2
          simp only [Option.getD_some] at h2
          linarith
        exact add_nonneg (mul_nonneg (le_min hr.le hw) hb.1) (ih hrest _)

lemma bracketLoop_mono (l : List Bracket) (hl : ∀ b ∈ l, b.Ok) {x y : ℚ}
    (hxy : x ≤ y) : bracketLoop l x ≤ bracketLoop l y := by
  induction l generalizing x y with
  | nil => simp [bracketLoop]
  | cons b rest ih =>
    have hb := hl b (List.mem_cons_self b rest)
    have hrest : ∀ q ∈ rest, q.Ok := fun q hq => hl q (List.mem_cons_of_mem b hq)
    have hy0 : 0 ≤ bracketLoop (b :: rest) y := bracketLoop_nonneg _ hl y
    simp only [bracketLoop] at hy0 ⊢
    split_ifs with hx hy hy
    · exact le_refl 0
    · rw [if_neg hy] at hy0
      exact hy0
    · linarith
    · push_neg at hx hy
      rcases hhi : b.hi with _ | hi
      · exact mul_le_mul_of_nonneg_right hxy hb.1
      · have hw : 0 ≤ hi - b.lo := by
          have h2 := hb.2
          rw [hhi] at h2
          simp only [Option.getD_some] at h2
          linarith
        have h1 : min x (hi - b.lo) ≤ min y (hi - b.lo) := min_le_min hxy le_rfl
        have h2 : x - min x (hi - b.lo) ≤ y - min y (hi - b.lo) := by
          rcases le_total x (hi - b.lo) with hxw | hxw
          · rw [min_eq_left hxw]
            have := min_le_left y (hi - b.lo)
            linarith
          · rw [min_eq_right hxw, min_eq_right (le_trans hxw hxy)]
            linarith
        exact add_le_add (mul_le_mul_of_nonneg_right h1 hb.1) (ih hrest h2)

lemma tax_brackets_ok : ∀ b ∈ TAX_BRACKETS, b.Ok := by
  intro b hb
  fin_cases hb <;> exact ⟨by norm_num, by norm_num⟩

lemma ni_brackets_ok : ∀ b ∈ NATIONAL_INSURANCE_BRACKETS, b.Ok := by
  intro b hb
  fin_cases hb <;> exact ⟨by norm_num, by norm_num⟩

/-- Claim C5: the cumulative progressive income tax is monotone. -/
theorem c5_progressiveTax_monotone (income1 income2 : ℚ) (h0 : 0 ≤ income1)
    (h : income1 < income2) :
    calculateProgressiveTax income1 ≤ calculateProgressiveTax income2 :=
  bracketLoop_mono TAX_BRACKETS tax_brackets_ok h.le

/-- Witness for Claim C5 at incomes 100,000 < 200,000. -/
theorem c5_witness :
    (0 : ℚ) ≤ 100000 ∧ (100000 : ℚ) < 200000 ∧
      calculateProgressiveTax 100000 ≤ calculateProgressiveTax 200000 :=
  ⟨by norm_num, by norm_num,
    c5_progressiveTax_monotone 100000 200000 (by norm_num) (by norm_num)⟩

/-- Claim C6: `taxOnTop` is additive over any split of the additional
income. -/
theorem c6_taxOnTop_additive (base add1 add2 : ℚ) (h1 : 0 ≤ base) (h2 : 0 ≤ add1)
    (h3 : 0 ≤ add2) :
    calculateAdditionalProgressiveTax base add1
        + calculateAdditionalProgressiveTax (base + add1) add2
      = calculateAdditionalProgressiveTax base (add1 + add2) := by
  unfold calculateAdditionalProgressiveTax
  rw [show base + (add1 + add2) = base + add1 + add2 by ring]
  ring

/-- Witness for Claim C6 at base 300,000 split 100,000 + 250,000. -/
theorem c6_witness :
    (0 : ℚ) ≤ 300000 ∧ (0 : ℚ) ≤ 100000 ∧ (0 : ℚ) ≤ 250000 ∧
      calculateAdditionalProgressiveTax 300000 100000
          + calculateAdditionalProgressiveTax (300000 + 100000) 250000
        = calculateAdditionalProgressiveTax 300000 (100000 + 250000) :=
  ⟨by norm_num, by norm_num, by norm_num,
    c6_taxOnTop_additive 300000 100000 250000 (by norm_num) (by norm_num) (by norm_num)⟩

/-- Claim C3: the surtax rule — all zero at or below the threshold, labor
absorbs the excess first above it, and the 800,000-labor example. -/
theorem c3_surtax_split (labor passive : ℚ) (hl : 0 ≤ labor) (hp : 0 ≤ passive) :
    (labor + passive ≤ SURTAX_THRESHOLD →
      calculateSurtax labor passive = ⟨0, 0, 0⟩) ∧
    (SURTAX_THRESHOLD < labor + passive →
      (calculateSurtax labor passive).laborSurtax
          = min (labor + passive - SURTAX_THRESHOLD) labor * SURTAX_LABOR_RATE ∧
        (calculateSurtax labor passive).passiveSurtax
          = max 0 (labor + passive - SURTAX_THRESHOLD
              - min (labor + passive - SURTAX_THRESHOLD) labor) * SURTAX_PASSIVE_RATE) ∧
    (calculateSurtax 800000 0).laborSurtax
        = (800000 - SURTAX_THRESHOLD) * SURTAX_LABOR_RATE ∧
    (calculateSurtax 800000 0).passiveSurtax = 0 := by
  refine ⟨fun h => ?_, fun h => ?_, ?_, ?_⟩
  · simp [calculateSurtax, h]
  · rw [calculateSurtax, if_neg (not_le.2 h)]
    exact ⟨rfl, rfl⟩
  · norm_num [calculateSurtax, SURTAX_THRESHOLD, SURTAX_LABOR_RATE, min_def]
  · norm_num [calculateSurtax, SURTAX_THRESHOLD, SURTAX_PASSIVE_RATE, min_def, max_def]

/-- Witness for Claim C3 at labor 800,000, passive 0. -/
theorem c3_witness :
    (0 : ℚ) ≤ 800000 ∧ (0 : ℚ) ≤ 0 ∧
      (((800000 : ℚ) + 0 ≤ SURTAX_THRESHOLD →
          calculateSurtax 800000 0 = ⟨0, 0, 0⟩) ∧
        (SURTAX_THRESHOLD < (800000 : ℚ) + 0 →
          (calculateSurtax 800000 0).laborSurtax
              = min ((800000 : ℚ) + 0 - SURTAX_THRESHOLD) 800000 * SURTAX_LABOR_RATE ∧
            (calculateSurtax 800000 0).passiveSurtax
              = max 0 ((800000 : ℚ) + 0 - SURTAX_THRESHOLD
                  - min ((800000 : ℚ) + 0 - SURTAX_THRESHOLD) 800000)
                  * SURTAX_PASSIVE_RATE) ∧
        (calculateSurtax 800000 0).laborSurtax
            = (800000 - SURTAX_THRESHOLD) * SURTAX_LABOR_RATE ∧
        (calculateSurtax 800000 0).passiveSurtax = 0) :=
  ⟨by norm_num, le_refl 0, c3_surtax_split 800000 0 (by norm_num) (le_refl 0)⟩

/-- Above the top bracket floor the monthly contribution is constant. -/
lemma ni_monthly_cap (m : ℚ) (hm : (50695 : ℚ) ≤ m) :
    calculateNationalInsuranceMonthly m = calculateNationalInsuranceMonthly 50695 := by
  simp only [calculateNationalInsuranceMonthly, NATIONAL_INSURANCE_BRACKETS, bracketLoop]
  norm_num
  rw [min_eq_right (show (7522 : ℚ) ≤ m by linarith),
    min_eq_right (show (43173 : ℚ) ≤ m - 7522 by linarith)]
  split_ifs <;> first | linarith | (ring_nf; norm_num) | ring_nf | norm_num

/-- Claim C7: the monthly social contribution caps out at the top-bracket
floor (50,695), and the engine annualizes as 12 × the monthly contribution
on `annualAmount / 12`. -/
theorem c7_ni_cap_and_annualization (m : ℚ) (hm : (50695 : ℚ) ≤ m)
    (grant : Grant) (shares currentPrice usdToIls : ℚ) (taxSettings : TaxSettings)
    (exerciseDate : SDate) (hai : taxSettings.annualIncome = none)
    (hns : grant.isSection102 = some false) :
    calculateNationalInsuranceMonthly m = calculateNationalInsuranceMonthly 50695 ∧
    (calculateRSUTax grant shares currentPrice taxSettings usdToIls
          exerciseDate).breakdown.nationalInsurance
      = calculateNationalInsuranceMonthly (shares * currentPrice * usdToIls / 12) * 12
          / usdToIls := by
  refine ⟨ni_monthly_cap m hm, ?_⟩
  simp [calculateRSUTax, mkTaxResult, nationalInsuranceIls, hai, hns,
    hasMetSection102HoldingPeriod]

/-- Witness for Claim C7 at monthly income 60,000 and a concrete RSU
computation. -/
theorem c7_witness :
    (50695 : ℚ) ≤ 60000 ∧ c1Settings.annualIncome = none ∧
      c1Grant.isSection102 = some false ∧
      (calculateNationalInsuranceMonthly 60000 = calculateNationalInsuranceMonthly 50695 ∧
        (calculateRSUTax c1Grant 10 20 c1Settings 4 ⟨2025, 0, 1⟩).breakdown.nationalInsurance
          = calculateNationalInsuranceMonthly (10 * 20 * 4 / 12) * 12 / 4) :=
  ⟨by norm_num, rfl, rfl,
    c7_ni_cap_and_annualization 60000 (by norm_num) c1Grant 10 20 4 c1Settings
      ⟨2025, 0, 1⟩ rfl rfl⟩

/-- Claim C8: an underwater Option (current price at or below the strike)
yields an all-zero result for every share count, settings, exchange rate and
date. -/
theorem c8_option_underwater (grant : Grant) (shares currentPrice : ℚ)
    (taxSettings : TaxSettings) (usdToIls : ℚ) (exerciseDate : SDate)
    (h : currentPrice ≤ grant.price) :
    calculateOptionTax grant shares currentPrice taxSettings usdToIls exerciseDate =
      { grossGain := 0, totalTax := 0, netGain := 0, effectiveTaxRate := 0,
        breakdown :=
          { incomeTax := 0, nationalInsurance := 0, capitalGainsTax := 0,
            surtax := 0, section102Applied := false } } := by
  rw [calculateOptionTax, if_pos h]

/-- Witness for Claim C8: 500 options struck at 10 with the stock at 8. -/
theorem c8_witness :
    (8 : ℚ) ≤ c8Grant.price ∧
      calculateOptionTax c8Grant 500 8 c1Settings 4 ⟨2025, 0, 1⟩ =
        { grossGain := 0, totalTax := 0, netGain := 0, effectiveTaxRate := 0,
          breakdown :=
            { incomeTax := 0, nationalInsurance := 0, capitalGainsTax := 0,
              surtax := 0, section102Applied := false } } :=
  ⟨by norm_num [c8Grant],
    c8_option_underwater c8Grant 500 8 c1Settings 4 ⟨2025, 0, 1⟩ (by norm_num [c8Grant])⟩

/-! ### Result-assembly identities -/

lemma mkTaxResult_net (g i n c s r : ℚ) (b : Bool) :
    (mkTaxResult g i n c s r b).netGain
      = (mkTaxResult g i n c s r b).grossGain - (mkTaxResult g i n c s r b).totalTax := rfl

lemma mkTaxResult_total (g i n c s r : ℚ) (b : Bool) :
    (mkTaxResult g i n c s r b).totalTax
      = (mkTaxResult g i n c s r b).breakdown.incomeTax
        + (mkTaxResult g i n c s r b).breakdown.nationalInsurance
        + (mkTaxResult g i n c s r b).breakdown.capitalGainsTax
        + (mkTaxResult g i n c s r b).breakdown.surtax := by
  simp [mkTaxResult, add_div]

/-- Claim C10: every result of `calculateRSUTax` and `calculateOptionTax`
satisfies `netGain = grossGain - totalTax` and `totalTax` equals the sum of
the four breakdown components, in the input currency. -/
theorem c10_breakdown_identity (grant : Grant) (shares currentPrice : ℚ)
    (taxSettings : TaxSettings) (usdToIls : ℚ) (exerciseDate : SDate) :
    ((calculateRSUTax grant shares currentPrice taxSettings usdToIls exerciseDate).netGain
        = (calculateRSUTax grant shares currentPrice taxSettings usdToIls
            exerciseDate).grossGain
          - (calculateRSUTax grant shares currentPrice taxSettings usdToIls
              exerciseDate).totalTax ∧
      (calculateRSUTax grant shares currentPrice taxSettings usdToIls exerciseDate).totalTax
        = (calculateRSUTax grant shares currentPrice taxSettings usdToIls
              exerciseDate).breakdown.incomeTax
          + (calculateRSUTax grant shares currentPrice taxSettings usdToIls
              exerciseDate).breakdown.nationalInsurance
          + (calculateRSUTax grant shares currentPrice taxSettings usdToIls
              exerciseDate).breakdown.capitalGainsTax
          + (calculateRSUTax grant shares currentPrice taxSettings usdToIls
              exerciseDate).breakdown.surtax) ∧
    ((calculateOptionTax grant shares currentPrice taxSettings usdToIls exerciseDate).netGain
        = (calculateOptionTax grant shares currentPrice taxSettings usdToIls
            exerciseDate).grossGain
          - (calculateOptionTax grant shares currentPrice taxSettings usdToIls
              exerciseDate).totalTax ∧
      (calculateOptionTax grant shares currentPrice taxSettings usdToIls
            exerciseDate).totalTax
        = (calculateOptionTax grant shares currentPrice taxSettings usdToIls
              exerciseDate).breakdown.incomeTax
          + (calculateOptionTax grant shares currentPrice taxSettings usdToIls
              exerciseDate).breakdown.nationalInsurance
          + (calculateOptionTax grant shares currentPrice taxSettings usdToIls
              exerciseDate).breakdown.capitalGainsTax
          + (calculateOptionTax grant shares currentPrice taxSettings usdToIls
              exerciseDate).breakdown.surtax) := by
  constructor
  · simp only [calculateRSUTax]
    split_ifs <;>
      exact ⟨mkTaxResult_net _ _ _ _ _ _ _, mkTaxResult_total _ _ _ _ _ _ _⟩
  · simp only [calculateOptionTax]
    split_ifs <;>
      first
        | exact ⟨mkTaxResult_net _ _ _ _ _ _ _, mkTaxResult_total _ _ _ _ _ _ _⟩
        | exact ⟨by norm_num, by norm_num⟩

/-! ### Zero-amount lemmas -/

lemma progressiveTax_zero : calculateProgressiveTax 0 = 0 := by
  simp [calculateProgressiveTax, TAX_BRACKETS, bracketLoop]

lemma niMonthly_zero : calculateNationalInsuranceMonthly 0 = 0 := by
  simp [calculateNationalInsuranceMonthly, NATIONAL_INSURANCE_BRACKETS, bracketLoop]

lemma ordinaryIncomeTaxIls_zero (taxSettings : TaxSettings) :
    ordinaryIncomeTaxIls taxSettings 0 = 0 := by
  unfold ordinaryIncomeTaxIls calculateAdditionalProgressiveTax
  rcases taxSettings.annualIncome with _ | A <;>
    rcases taxSettings.marginalTaxRate with _ | r <;>
      split_ifs <;> simp [progressiveTax_zero]

lemma nationalInsuranceIls_zero (taxSettings : TaxSettings) :
    nationalInsuranceIls taxSettings 0 = 0 := by
  unfold nationalInsuranceIls calculateAdditionalNationalInsurance
  rcases taxSettings.annualIncome with _ | A
  · simp [niMonthly_zero]
  · dsimp only
    split_ifs <;> simp [niMonthly_zero]

lemma laborSurtaxDeltaIls_zero (taxSettings : TaxSettings) :
    laborSurtaxDeltaIls taxSettings 0 = 0 := by
  simp [laborSurtaxDeltaIls]

lemma surtax_zero_zero : calculateSurtax 0 0 = ⟨0, 0, 0⟩ := by
  norm_num [calculateSurtax, SURTAX_THRESHOLD]

/-- Counterexample to Claim C9 as stated: at −1,000 shares the RSU result
has a strictly negative gross gain, not zero. -/
theorem c9_counterexample :
    (-1000 : ℚ) ≤ 0 ∧
      (calculateRSUTax c1Grant (-1000) 22 c1Settings 1 ⟨2025, 0, 1⟩).grossGain = -22000 ∧
      (-22000 : ℚ) ≠ 0 := by
  refine ⟨by norm_num, ?_, by norm_num⟩
  simp only [calculateRSUTax]
  split_ifs <;> norm_num [mkTaxResult]

/-- Claim C9 (amended): a share count of exactly 0 yields a zero-valued
result from both `calculateRSUTax` and `calculateOptionTax` (effective rate
0, not NaN); a strictly negative share count instead scales the outputs, so
the RSU gross gain is strictly negative (for a positive price), while the
effective tax rate is still guarded to 0. -/
theorem c9_nonpositive_shares (grant : Grant) (shares currentPrice : ℚ)
    (taxSettings : TaxSettings) (usdToIls : ℚ) (exerciseDate : SDate)
    (hs : shares ≤ 0) :
    (shares = 0 →
      (calculateRSUTax grant shares currentPrice taxSettings usdToIls
          exerciseDate).grossGain = 0 ∧
      (calculateRSUTax grant shares currentPrice taxSettings usdToIls
          exerciseDate).totalTax = 0 ∧
      (calculateRSUTax grant shares currentPrice taxSettings usdToIls
          exerciseDate).netGain = 0 ∧
      (calculateRSUTax grant shares currentPrice taxSettings usdToIls
          exerciseDate).effectiveTaxRate = 0 ∧
      (calculateOptionTax grant shares currentPrice taxSettings usdToIls
          exerciseDate).grossGain = 0 ∧
      (calculateOptionTax grant shares currentPrice taxSettings usdToIls
          exerciseDate).totalTax = 0 ∧
      (calculateOptionTax grant shares currentPrice taxSettings usdToIls
          exerciseDate).netGain = 0 ∧
      (calculateOptionTax grant shares currentPrice taxSettings usdToIls
          exerciseDate).effectiveTaxRate = 0) ∧
    (shares < 0 → 0 < currentPrice →
      (calculateRSUTax grant shares currentPrice taxSettings usdToIls
          exerciseDate).grossGain < 0 ∧
      (calculateRSUTax grant shares currentPrice taxSettings usdToIls
          exerciseDate).effectiveTaxRate = 0) := by
  constructor
  · intro h0
    subst h0
    have hrsu : ∀ p : TaxCalculationResult,
        p = calculateRSUTax grant 0 currentPrice taxSettings usdToIls exerciseDate →
        p.grossGain = 0 ∧ p.totalTax = 0 ∧ p.netGain = 0 ∧ p.effectiveTaxRate = 0 := by
      intro p hp
      subst hp
      simp only [calculateRSUTax]
      split_ifs <;>
        simp [mkTaxResult, ordinaryIncomeTaxIls_zero, nationalInsuranceIls_zero,
          laborSurtaxDeltaIls_zero, surtax_zero_zero]
    have hopt : ∀ p : TaxCalculationResult,
        p = calculateOptionTax grant 0 currentPrice taxSettings usdToIls exerciseDate →
        p.grossGain = 0 ∧ p.totalTax = 0 ∧ p.netGain = 0 ∧ p.effectiveTaxRate = 0 := by
      intro p hp
      subst hp
      simp only [calculateOptionTax]
      split_ifs <;>
        simp [mkTaxResult, ordinaryIncomeTaxIls_zero, nationalInsuranceIls_zero,
          laborSurtaxDeltaIls_zero, surtax_zero_zero]
    obtain ⟨h1, h2, h3, h4⟩ := hrsu _ rfl
    obtain ⟨h5, h6, h7, h8⟩ := hopt _ rfl
    exact ⟨h1, h2, h3, h4, h5, h6, h7, h8⟩
  · intro hneg hp
    have hg : shares * currentPrice < 0 := mul_neg_of_neg_of_pos hneg hp
    constructor
    · simp only [calculateRSUTax]
      split_ifs <;> simpa [mkTaxResult] using hg
    · simp only [calculateRSUTax]
      split_ifs <;> simp [mkTaxResult, lt_asymm hg]

/-- Witness for Claim C9 (amended) at zero shares. -/
theorem c9_witness :
    (0 : ℚ) ≤ 0 ∧
      (((0 : ℚ) = 0 →
        (calculateRSUTax c4Grant 0 22 incomeSettings 1 ⟨2025, 0, 1⟩).grossGain = 0 ∧
        (calculateRSUTax c4Grant 0 22 incomeSettings 1 ⟨2025, 0, 1⟩).totalTax = 0 ∧
        (calculateRSUTax c4Grant 0 22 incomeSettings 1 ⟨2025, 0, 1⟩).netGain = 0 ∧
        (calculateRSUTax c4Grant 0 22 incomeSettings 1 ⟨2025, 0, 1⟩).effectiveTaxRate = 0 ∧
        (calculateOptionTax c4Grant 0 22 incomeSettings 1 ⟨2025, 0, 1⟩).grossGain = 0 ∧
        (calculateOptionTax c4Grant 0 22 incomeSettings 1 ⟨2025, 0, 1⟩).totalTax = 0 ∧
        (calculateOptionTax c4Grant 0 22 incomeSettings 1 ⟨2025, 0, 1⟩).netGain = 0 ∧
        (calculateOptionTax c4Grant 0 22 incomeSettings 1
            ⟨2025, 0, 1⟩).effectiveTaxRate = 0) ∧
      ((0 : ℚ) < 0 → 0 < (22 : ℚ) →
        (calculateRSUTax c4Grant 0 22 incomeSettings 1 ⟨2025, 0, 1⟩).grossGain < 0 ∧
        (calculateRSUTax c4Grant 0 22 incomeSettings 1
            ⟨2025, 0, 1⟩).effectiveTaxRate = 0)) :=
  ⟨le_refl 0, c9_nonpositive_shares c4Grant 0 22 incomeSettings 1 ⟨2025, 0, 1⟩ (le_refl 0)⟩

/-! ### Claim C1: the RSU scenario -/

lemma niMonthly_pos (x : ℚ) (hx : 0 < x) : 0 < calculateNationalInsuranceMonthly x := by
  simp only [calculateNationalInsuranceMonthly, NATIONAL_INSURANCE_BRACKETS, bracketLoop]
  rw [if_neg (by linarith)]
  have hmin : 0 < min x ((7522 : ℚ) - 0) := lt_min hx (by norm_num)
  have hp : 0 < min x ((7522 : ℚ) - 0) * 0.0427 := mul_pos hmin (by norm_num)
  split_ifs with h1 h2
  · linarith
  · have hq : (0 : ℚ) ≤ min (x - min x (7522 - 0)) (50695 - 7522) * 0.1217 :=
      mul_nonneg (le_min (by linarith) (by norm_num)) (by norm_num)
    linarith
  · have hq : (0 : ℚ) ≤ min (x - min x (7522 - 0)) (50695 - 7522) * 0.1217 :=
      mul_nonneg (le_min (by linarith) (by norm_num)) (by norm_num)
    linarith

lemma laborSurtax_nonneg (labor : ℚ) (h : 0 ≤ labor) :
    0 ≤ (calculateSurtax labor 0).laborSurtax := by
  simp only [calculateSurtax]
  split_ifs with hth
  · norm_num
  · push_neg at hth
    dsimp only
    refine mul_nonneg (le_min (by linarith) h) (by norm_num [SURTAX_LABOR_RATE])

/-- The C1 scenario reduced to its non-preferential branch. -/
lemma c1_unfold (usdToIls : ℚ) (exerciseDate : SDate) :
    calculateRSUTax c1Grant 1000 22 c1Settings usdToIls exerciseDate
      = mkTaxResult (1000 * 22) (1000 * 22 * usdToIls * 0.47)
          (calculateNationalInsuranceMonthly (1000 * 22 * usdToIls / 12) * 12) 0
          (laborSurtaxDeltaIls c1Settings (1000 * 22 * usdToIls)) usdToIls false := by
  simp [calculateRSUTax, c1Grant, c1Settings, ordinaryIncomeTaxIls, nationalInsuranceIls,
    hasMetSection102HoldingPeriod]

/-- Counterexample to Claim C1 as stated: at exchange rate 1 the returned
totalTax is 11,279.4, not 10,340 — national insurance is charged on top of
the fixed-rate income tax. -/
theorem c1_counterexample :
    (calculateRSUTax c1Grant 1000 22 c1Settings 1 ⟨2025, 0, 1⟩).totalTax ≠ 10340 := by
  rw [c1_unfold]
  norm_num [mkTaxResult, laborSurtaxDeltaIls, c1Settings, calculateSurtax,
    calculateNationalInsuranceMonthly, NATIONAL_INSURANCE_BRACKETS, bracketLoop,
    SURTAX_THRESHOLD, min_def]

/-- Claim C1 (amended): in the scenario (RSU, 1,000 shares, issue 15.50,
current 22.00, not preferential-eligible, fixed marginal rate 0.47, no base
annual income), grossGain = 22,000 and the income-tax component is 10,340
for every positive exchange rate, but totalTax additionally includes the
strictly positive national-insurance component (and a non-negative surtax
component), so totalTax = 10,340 + NI + surtax > 10,340, and
netGain = 22,000 − totalTax. -/
theorem c1_rsu_scenario_amended (usdToIls : ℚ) (h : 0 < usdToIls) (exerciseDate : SDate) :
    (calculateRSUTax c1Grant 1000 22 c1Settings usdToIls exerciseDate).grossGain = 22000 ∧
    (calculateRSUTax c1Grant 1000 22 c1Settings usdToIls
        exerciseDate).breakdown.incomeTax = 10340 ∧
    (calculateRSUTax c1Grant 1000 22 c1Settings usdToIls exerciseDate).totalTax
      = 10340
        + (calculateRSUTax c1Grant 1000 22 c1Settings usdToIls
            exerciseDate).breakdown.nationalInsurance
        + (calculateRSUTax c1Grant 1000 22 c1Settings usdToIls
            exerciseDate).breakdown.surtax ∧
    0 < (calculateRSUTax c1Grant 1000 22 c1Settings usdToIls
        exerciseDate).breakdown.nationalInsurance ∧
    0 ≤ (calculateRSUTax c1Grant 1000 22 c1Settings usdToIls
        exerciseDate).breakdown.surtax ∧
    (calculateRSUTax c1Grant 1000 22 c1Settings usdToIls exerciseDate).netGain
      = 22000 - (calculateRSUTax c1Grant 1000 22 c1Settings usdToIls
          exerciseDate).totalTax := by
  have hr : usdToIls ≠ 0 := ne_of_gt h
  rw [c1_unfold]
  have hni : 0 < calculateNationalInsuranceMonthly (1000 * 22 * usdToIls / 12) :=
    niMonthly_pos _ (by positivity)
  have hsur : 0 ≤ laborSurtaxDeltaIls c1Settings (1000 * 22 * usdToIls) := by
    unfold laborSurtaxDeltaIls
    simp only [c1Settings, Option.getD_none, zero_add]
    have h1 := laborSurtax_nonneg (1000 * 22 * usdToIls) (by positivity)
    have h2 : (calculateSurtax 0 0).laborSurtax = 0 := by
      rw [surtax_zero_zero]
    rw [h2]
    linarith
  refine ⟨by norm_num [mkTaxResult], ?_, ?_, ?_, ?_, by norm_num [mkTaxResult]⟩
  · show 1000 * 22 * usdToIls * 0.47 / usdToIls = 10340
    field_simp
    ring
  · show (1000 * 22 * usdToIls * 0.47
        + calculateNationalInsuranceMonthly (1000 * 22 * usdToIls / 12) * 12 + 0
        + laborSurtaxDeltaIls c1Settings (1000 * 22 * usdToIls)) / usdToIls
      = 10340 + calculateNationalInsuranceMonthly (1000 * 22 * usdToIls / 12) * 12 / usdToIls
        + laborSurtaxDeltaIls c1Settings (1000 * 22 * usdToIls) / usdToIls
    rw [add_div, add_div, add_div]
    have : 1000 * 22 * usdToIls * 0.47 / usdToIls = 10340 := by
      field_simp
      ring
    rw [this]
    ring
  · show 0 < calculateNationalInsuranceMonthly (1000 * 22 * usdToIls / 12) * 12 / usdToIls
    positivity
  · show 0 ≤ laborSurtaxDeltaIls c1Settings (1000 * 22 * usdToIls) / usdToIls
    exact div_nonneg hsur h.le

/-- Witness for Claim C1 (amended) at exchange rate 3.65. -/
theorem c1_witness :
    (0 : ℚ) < 3.65 ∧
      ((calculateRSUTax c1Grant 1000 22 c1Settings 3.65 ⟨2025, 0, 1⟩).grossGain = 22000 ∧
      (calculateRSUTax c1Grant 1000 22 c1Settings 3.65
          ⟨2025, 0, 1⟩).breakdown.incomeTax = 10340 ∧
      (calculateRSUTax c1Grant 1000 22 c1Settings 3.65 ⟨2025, 0, 1⟩).totalTax
        = 10340
          + (calculateRSUTax c1Grant 1000 22 c1Settings 3.65
              ⟨2025, 0, 1⟩).breakdown.nationalInsurance
          + (calculateRSUTax c1Grant 1000 22 c1Settings 3.65
              ⟨2025, 0, 1⟩).breakdown.surtax ∧
      0 < (calculateRSUTax c1Grant 1000 22 c1Settings 3.65
          ⟨2025, 0, 1⟩).breakdown.nationalInsurance ∧
      0 ≤ (calculateRSUTax c1Grant 1000 22 c1Settings 3.65
          ⟨2025, 0, 1⟩).breakdown.surtax ∧
      (calculateRSUTax c1Grant 1000 22 c1Settings 3.65 ⟨2025, 0, 1⟩).netGain
        = 22000 - (calculateRSUTax c1Grant 1000 22 c1Settings 3.65
            ⟨2025, 0, 1⟩).totalTax) :=
  ⟨by norm_num, c1_rsu_scenario_amended 3.65 (by norm_num) ⟨2025, 0, 1⟩⟩

/-! ### Claim C2: ESPP without a trustee -/

/-- Counterexample to Claim C2 as stated: purchase 85, FMV 100, sale 120,
10 shares, no trustee, marginal rate 0.47.  The appreciation is 200, so the
claim predicts a payable tax of 50 (holding period met, 25%) or 94 (not
met, 47%); the code returns 120.5 in both cases, because the discount tax
70.5 is included in totalTax and the appreciation is always taxed at 25%. -/
theorem c2_counterexample :
    (calculateESPPTax 85 100 120 10 false true 0.47).totalTax
        ≠ ((120 - 100) * 10) * 0.25 ∧
      (calculateESPPTax 85 100 120 10 false false 0.47).totalTax
        ≠ ((120 - 100) * 10) * 0.47 := by
  constructor <;> norm_num [calculateESPPTax, max_def]

/-- Claim C2 (amended): with `withTrustee = false`, `calculateESPPTax`
returns totalTax = discountTax + capitalGainsTax, where the discount tax
`(fairMarketValue − purchasePrice) × shares × marginalRate` is included in
the payable total (flagged `immediatelyTaxed` as paid at purchase), and the
appreciation is always taxed at the 25% capital-gains rate (floored at 0)
regardless of the holding period, which has no effect on the result. -/
theorem c2_espp_no_trustee_amended (purchasePrice fairMarketValueAtPurchase
    salePrice shares marginalTaxRate : ℚ) (holdingPeriodMet : Bool) :
    (calculateESPPTax purchasePrice fairMarketValueAtPurchase salePrice shares false
        holdingPeriodMet marginalTaxRate).totalTax
      = (calculateESPPTax purchasePrice fairMarketValueAtPurchase salePrice shares false
          holdingPeriodMet marginalTaxRate).discountTax
        + (calculateESPPTax purchasePrice fairMarketValueAtPurchase salePrice shares false
            holdingPeriodMet marginalTaxRate).capitalGainsTax ∧
    (calculateESPPTax purchasePrice fairMarketValueAtPurchase salePrice shares false
        holdingPeriodMet marginalTaxRate).discountTax
      = (fairMarketValueAtPurchase - purchasePrice) * shares * marginalTaxRate ∧
    (calculateESPPTax purchasePrice fairMarketValueAtPurchase salePrice shares false
        holdingPeriodMet marginalTaxRate).capitalGainsTax
      = max 0 ((salePrice - fairMarketValueAtPurchase) * shares * 0.25) ∧
    (calculateESPPTax purchasePrice fairMarketValueAtPurchase salePrice shares false
        holdingPeriodMet marginalTaxRate).immediatelyTaxed = true ∧
    calculateESPPTax purchasePrice fairMarketValueAtPurchase salePrice shares false true
        marginalTaxRate
      = calculateESPPTax purchasePrice fairMarketValueAtPurchase salePrice shares false
          false marginalTaxRate :=
  ⟨rfl, rfl, rfl, rfl, rfl⟩

end StocksSim